import Mathlib

/-!
Verification of the chatbot-backend gateway: a shallow embedding of the
provider-adapter layer (Anthropic, OpenAI, Mistral services), the Mistral
raw-SSE stream handler, the file-backed conversation store
(ConversationManager), and the `/api/chat` endpoint's control flow, together
with theorems settling the specification's claims about them.

Conventions of the embedding:
* JavaScript strings are modelled as Lean `String` (a list of characters);
  `substring`/`length` count characters rather than UTF-16 code units, which
  agrees on the ASCII inputs the theorems use.
* JSON documents on disk (`<id>.json`, `metadata.json`) are modelled as
  association lists with JavaScript object semantics: updating an existing key
  keeps its position, a new key is appended, `delete` removes the key.
* Fallible operations (`fs.unlink` on a missing file, a vendor response whose
  fields are absent) return `Except`/`Option` values.
* Values drawn from the environment (`new Date().toISOString()`) are threaded
  as explicit `now` parameters; the synthetic numeric message id
  (`Date.now() + Math.random()`) that `saveMessage` attaches is elided because
  no specified property mentions it.
-/

namespace ChatbotBackend

/-- Splits a character list at every character satisfying `p`, keeping empty
fragments, exactly like JavaScript's `String.prototype.split` with a
single-character separator (`"".split(sep)` gives `[""]`). -/
def splitBy (p : Char → Bool) : List Char → List (List Char)
  | [] => [[]]
  | c :: rest =>
    match splitBy p rest with
    | [] => [[c]]
    | h :: t => if p c then [] :: h :: t else (c :: h) :: t

/-- Splits on one separator character, like JavaScript `split(sep)`. -/
def splitChar (sep : Char) (cs : List Char) : List (List Char) :=
  splitBy (fun c => c = sep) cs

/-- JavaScript `String.prototype.trim` on the ASCII whitespace characters. -/
def trimChars (cs : List Char) : List Char :=
  ((cs.dropWhile Char.isWhitespace).reverse.dropWhile Char.isWhitespace).reverse

/-- Joins strings with a separator, like JavaScript `Array.prototype.join`. -/
def joinSep (sep : String) : List String → String
  | [] => ""
  | [x] => x
  | x :: xs => x ++ sep ++ joinSep sep xs

/-- Concatenation of a list of strings in order. -/
def concatStrings : List String → String
  | [] => ""
  | s :: rest => s ++ concatStrings rest

/-- Lookup in a JavaScript-object association list (`obj[key]`). -/
def objGet {α : Type} : List (String × α) → String → Option α
  | [], _ => none
  | (k', v) :: rest, k => if k' = k then some v else objGet rest k

/-- Assignment in a JavaScript-object association list (`obj[key] = v`):
an existing key is updated in place, a new key is appended. -/
def objSet {α : Type} : List (String × α) → String → α → List (String × α)
  | [], k, v => [(k, v)]
  | (k', v') :: rest, k, v =>
    if k' = k then (k, v) :: rest else (k', v') :: objSet rest k v

/-- Key removal in a JavaScript-object association list (`delete obj[key]`). -/
def objDelete {α : Type} : List (String × α) → String → List (String × α)
  | [], _ => []
  | (k', v') :: rest, k => if k' = k then rest else (k', v') :: objDelete rest k

/-- The last `n` elements of a list, in order: JavaScript `slice(-n)`. -/
def lastN {α : Type} (n : Nat) (l : List α) : List α := l.drop (l.length - n)

/-- Canonical chat message: `{role, content, timestamp}`. -/
structure Message where
  role : String
  content : String
  timestamp : String
deriving Repr, DecidableEq

/-- Canonical usage record every adapter produces; the same three-field shape
is also the wire shape of the OpenAI and Mistral vendor `usage` objects, so it
doubles as their vendor-side type. -/
structure CanonicalUsage where
  prompt_tokens : Int
  completion_tokens : Int
  total_tokens : Int
deriving Repr, DecidableEq

/-- Canonical result of a non-streaming `generateResponse` call. -/
structure GenerationResult where
  content : String
  model : String
  usage : CanonicalUsage
deriving Repr, DecidableEq

/-! ### JSON values and `JSON.parse`

The Mistral adapter's stream handler calls `JSON.parse` on each payload line.
The model below implements the JSON grammar over character lists (objects,
arrays, strings with the common escapes, integer numbers — fractional digits
and exponents are consumed but the stored numeric value keeps only the integer
part, and `\u` escapes are not modelled; no payload the theorems evaluate uses
either), returning `none` exactly when parsing fails, as `JSON.parse` throws. -/

inductive Json where
  | null
  | bool (b : Bool)
  | num (n : Int)
  | str (s : String)
  | arr (elems : List Json)
  | obj (fields : List (String × Json))
deriving Repr

/-- Skips JSON insignificant whitespace. -/
def skipWs : List Char → List Char
  | c :: rest =>
    if c = ' ' || c = '\t' || c = '\n' || c = '\r' then skipWs rest else c :: rest
  | [] => []

/-- Decodes a one-character JSON string escape. -/
def decodeEscape (c : Char) : Option Char :=
  if c = '"' || c = '\\' || c = '/' then some c
  else if c = 'n' then some '\n'
  else if c = 't' then some '\t'
  else if c = 'r' then some '\r'
  else if c = 'b' then some (Char.ofNat 8)
  else if c = 'f' then some (Char.ofNat 12)
  else none

/-- Parses the body of a JSON string after the opening quote, returning the
decoded characters and the input remaining after the closing quote; fails on
an unterminated string (the split-line hazard case). -/
def parseStringRest : List Char → Option (List Char × List Char)
  | [] => none
  | '"' :: rest => some ([], rest)
  | '\\' :: e :: rest => do
    let c ← decodeEscape e
    let (s, r) ← parseStringRest rest
    return (c :: s, r)
  | ['\\'] => none
  | c :: rest => (parseStringRest rest).map (fun p => (c :: p.1, p.2))

/-- Checks that `cs` starts with the literal `lit` and drops it. -/
def dropLit (lit cs : List Char) : Option (List Char) :=
  if cs.take lit.length = lit then some (cs.drop lit.length) else none

/-- Parses a JSON number (the stored value keeps the integer part; fraction
and exponent digits are consumed and discarded, see the section comment). -/
def jsonParseNumber (cs : List Char) : Option (Json × List Char) :=
  let neg := cs.head? = some '-'
  let cs1 := if neg then cs.drop 1 else cs
  let ds := cs1.takeWhile Char.isDigit
  if ds.isEmpty then none else
    let v : Int := Int.ofNat (ds.foldl (fun a c => 10 * a + (c.toNat - 48)) 0)
    let afterInt := cs1.drop ds.length
    let afterFrac :=
      match afterInt with
      | '.' :: r =>
        let fs := r.takeWhile Char.isDigit
        if fs.isEmpty then afterInt else r.drop fs.length
      | _ => afterInt
    let afterExp :=
      match afterFrac with
      | c :: r =>
        if c = 'e' || c = 'E' then
          let r1 := if r.head? = some '+' || r.head? = some '-' then r.drop 1 else r
          let es := r1.takeWhile Char.isDigit
          if es.isEmpty then afterFrac else r1.drop es.length
        else afterFrac
      | [] => afterFrac
    some (Json.num (if neg then -v else v), afterExp)

mutual

/-- Parses one JSON value (fuel-bounded recursion; the top-level entry point
supplies fuel exceeding the input length, which every nesting level consumes
at least one unit of). -/
def jsonParseValue : Nat → List Char → Option (Json × List Char)
  | 0, _ => none
  | fuel + 1, cs0 =>
    match skipWs cs0 with
    | [] => none
    | c :: cs =>
      if c = '"' then
        (parseStringRest cs).map (fun p => (Json.str (String.mk p.1), p.2))
      else if c = '[' then
        match skipWs cs with
        | ']' :: cs2 => some (Json.arr [], cs2)
        | cs2 => (jsonParseItems fuel cs2).map (fun p => (Json.arr p.1, p.2))
      else if c = '\x7b' then
        match skipWs cs with
        | '\x7d' :: cs2 => some (Json.obj [], cs2)
        | cs2 => (jsonParseFields fuel cs2).map (fun p => (Json.obj p.1, p.2))
      else if c = 't' then (dropLit "rue".data cs).map (fun r => (Json.bool true, r))
      else if c = 'f' then (dropLit "alse".data cs).map (fun r => (Json.bool false, r))
      else if c = 'n' then (dropLit "ull".data cs).map (fun r => (Json.null, r))
      else jsonParseNumber (c :: cs)

/-- Parses the comma-separated elements of a non-empty JSON array up to the
closing bracket. -/
def jsonParseItems : Nat → List Char → Option (List Json × List Char)
  | 0, _ => none
  | fuel + 1, cs => do
    let (v, r1) ← jsonParseValue fuel cs
    match skipWs r1 with
    | ',' :: r2 => (jsonParseItems fuel r2).map (fun p => (v :: p.1, p.2))
    | ']' :: r2 => some ([v], r2)
    | _ => none

/-- Parses the comma-separated members of a non-empty JSON object up to the
closing brace. -/
def jsonParseFields : Nat → List Char → Option (List (String × Json) × List Char)
  | 0, _ => none
  | fuel + 1, cs =>
    match skipWs cs with
    | '"' :: r => do
      let (key, r1) ← parseStringRest r
      match skipWs r1 with
      | ':' :: r2 => do
        let (v, r3) ← jsonParseValue fuel r2
        match skipWs r3 with
        | ',' :: r4 => (jsonParseFields fuel r4).map (fun p => ((String.mk key, v) :: p.1, p.2))
        | '\x7d' :: r4 => some ([(String.mk key, v)], r4)
        | _ => none
      | _ => none
    | _ => none

end

/-- The model of `JSON.parse`: parses one value and requires the rest of the
input to be whitespace; `none` models the thrown `SyntaxError`. -/
def parseJson (cs : List Char) : Option Json :=
  match jsonParseValue (cs.length + 1) cs with
  | some (v, rest) => if skipWs rest = [] then some v else none
  | none => none

/-- Field lookup on a JSON value; `none` when the value is not an object or
the key is absent (the behaviour of `?.` access returning `undefined`). -/
def jsonGet (j : Json) (k : String) : Option Json :=
  match j with
  | Json.obj fields => objGet fields k
  | _ => none

/-- JavaScript truthiness of a JSON value. -/
def jsonTruthy : Json → Bool
  | Json.null => false
  | Json.bool b => b
  | Json.num n => n ≠ 0
  | Json.str s => s ≠ ""
  | Json.arr _ => true
  | Json.obj _ => true

/-! ### Mistral stream handler (mistralService.streamResponse data callback)

The vendor delivers a raw byte feed; each network read invokes the `data`
callback, which splits that single chunk on `'\n'`, keeps lines whose trimmed
text is non-empty, and handles each `data: `-prefixed line: the `[DONE]`
sentinel fires `onComplete` and returns from the callback, any other payload
is `JSON.parse`d — a parse failure is swallowed (`catch` with a comment
"Ignore parsing errors for incomplete chunks") — and a non-empty
`choices[0]?.delta?.content` is appended to `fullContent` and emitted via
`onChunk`; a truthy `usage` field replaces the remembered usage. There is no
buffer carrying text from one read to the next. -/

/-- Events observed by the stream's consumer, in emission order. -/
inductive StreamEvent where
  | delta (content : String)
  | complete (content : String) (model : String) (usage : Option Json)

/-- Mutable state of one `streamResponse` invocation: the accumulated
`fullContent` and the last seen `usage`. -/
structure MistralStreamState where
  fullContent : String
  usage : Option Json

/-- Models `parsed.choices[0]?.delta?.content || ''`. -/
def extractDeltaContent (parsed : Json) : String :=
  match jsonGet parsed "choices" with
  | some (Json.arr (choice0 :: _)) =>
    match jsonGet choice0 "delta" with
    | some delta =>
      match jsonGet delta "content" with
      | some (Json.str s) => s
      | _ => ""
    | none => ""
  | _ => ""

/-- Processes the (already split and filtered) lines of one network read; the
`[DONE]` sentinel stops processing the remaining lines of this read (the
`return` statement) after emitting the completion event. -/
def processLines (st : MistralStreamState) (model : String) :
    List (List Char) → MistralStreamState × List StreamEvent
  | [] => (st, [])
  | line :: rest =>
    if line.take 6 = "data: ".data then
      let data := line.drop 6
      if data = "[DONE]".data then
        (st, [StreamEvent.complete st.fullContent model st.usage])
      else
        match parseJson data with
        | some parsed =>
          let content := extractDeltaContent parsed
          let (st1, evs) :=
            if content ≠ "" then
              ({ st with fullContent := st.fullContent ++ content },
               [StreamEvent.delta content])
            else (st, [])
          let st2 :=
            match jsonGet parsed "usage" with
            | some u => if jsonTruthy u then { st1 with usage := some u } else st1
            | none => st1
          let (st3, evs') := processLines st2 model rest
          (st3, evs ++ evs')
        | none => processLines st model rest
    else processLines st model rest

/-- One invocation of the `data` callback on one network read:
`chunk.toString().split('\n').filter(line => line.trim())`, then per-line
handling. -/
def processChunk (st : MistralStreamState) (model : String) (chunk : String) :
    MistralStreamState × List StreamEvent :=
  processLines st model
    ((splitChar '\n' chunk.data).filter (fun l => trimChars l ≠ []))

/-- Consecutive network reads: each read invokes the `data` callback on the
state left by the previous one; events accumulate in arrival order. -/
def processChunks (st : MistralStreamState) (model : String) :
    List String → MistralStreamState × List StreamEvent
  | [] => (st, [])
  | chunk :: rest =>
    let (st1, evs1) := processChunk st model chunk
    let (st2, evs2) := processChunks st1 model rest
    (st2, evs1 ++ evs2)

/-! ### Provider adapters: request translation and vendor-call bodies -/

/-- The argument object the gateway passes to `generateResponse` /
`streamResponse`; absent properties are `none` (JavaScript `undefined`), so
the services' destructuring defaults apply. `temperature` is carried as a
rational. -/
structure ChatCallParams where
  messages : List Message
  model : Option String
  systemPrompt : Option String
  temperature : Option Rat
  maxTokens : Option Nat

/-- A role-tagged turn in the OpenAI/Mistral wire format. -/
structure VendorChatMessage where
  role : String
  content : String
deriving Repr, DecidableEq

/-- Mistral/OpenAI `formatMessages`: maps each turn to `{role, content}` and,
when `systemPrompt` is truthy (present and non-empty), unshifts a system
turn. -/
def openaiStyleFormatMessages (messages : List Message) (systemPrompt : Option String) :
    List VendorChatMessage :=
  let formattedMessages := messages.map (fun msg => VendorChatMessage.mk msg.role msg.content)
  match systemPrompt with
  | some sp => if sp = "" then formattedMessages
               else VendorChatMessage.mk "system" sp :: formattedMessages
  | none => formattedMessages

/-- Anthropic `formatMessages`: drops `system` turns (system content travels
in the dedicated `system` field) and maps `assistant` to `assistant`,
everything else to `user`. -/
def anthropicFormatMessages (messages : List Message) : List VendorChatMessage :=
  (messages.filter (fun msg => msg.role ≠ "system")).map
    (fun msg => VendorChatMessage.mk (if msg.role = "assistant" then "assistant" else "user") msg.content)

/-- Body of the Mistral non-streaming `POST /chat/completions`. -/
structure MistralGenerateBody where
  model : String
  messages : List VendorChatMessage
  temperature : Rat
  max_tokens : Nat
  top_p : Nat
  stream : Bool

/-- Body of the Mistral streaming `POST /chat/completions`. -/
structure MistralStreamBody where
  model : String
  messages : List VendorChatMessage
  temperature : Rat
  max_tokens : Nat
  stream : Bool

/-- `mistralService.generateResponse` request body: the caller's `maxTokens`
(defaulted to 1000 when absent) is sent as `max_tokens`. -/
def mistralGenerateBody (p : ChatCallParams) : MistralGenerateBody :=
  { model := p.model.getD "mistral-large-latest"
    messages := openaiStyleFormatMessages p.messages p.systemPrompt
    temperature := p.temperature.getD 0.7
    max_tokens := p.maxTokens.getD 1000
    top_p := 1
    stream := false }

/-- `mistralService.streamResponse` request body: `max_tokens` is the literal
1000 — the destructured parameter list of `streamResponse` does not even
include `maxTokens`. -/
def mistralStreamBody (p : ChatCallParams) : MistralStreamBody :=
  { model := p.model.getD "mistral-large-latest"
    messages := openaiStyleFormatMessages p.messages p.systemPrompt
    temperature := p.temperature.getD 0.7
    max_tokens := 1000
    stream := true }

/-- Body of `anthropic.messages.create` (the `stream` flag distinguishes the
two call sites). -/
structure AnthropicCallBody where
  model : String
  max_tokens : Nat
  temperature : Rat
  system : Option String
  messages : List VendorChatMessage
  stream : Bool

/-- `anthropicService.generateResponse` request body. -/
def anthropicGenerateBody (p : ChatCallParams) : AnthropicCallBody :=
  { model := p.model.getD "claude-3-sonnet-20240229"
    max_tokens := p.maxTokens.getD 1000
    temperature := p.temperature.getD 0.7
    system := p.systemPrompt
    messages := anthropicFormatMessages p.messages
    stream := false }

/-- `anthropicService.streamResponse` request body: `max_tokens` is the
literal 1000; `maxTokens` is not among the destructured parameters. -/
def anthropicStreamBody (p : ChatCallParams) : AnthropicCallBody :=
  { model := p.model.getD "claude-3-sonnet-20240229"
    max_tokens := 1000
    temperature := p.temperature.getD 0.7
    system := p.systemPrompt
    messages := anthropicFormatMessages p.messages
    stream := true }

/-- Body of `openai.chat.completions.create` for the non-streaming call. -/
structure OpenAIGenerateBody where
  model : String
  messages : List VendorChatMessage
  temperature : Rat
  max_tokens : Nat
  top_p : Nat
  frequency_penalty : Nat
  presence_penalty : Nat

/-- Body of `openai.chat.completions.create` for the streaming call. -/
structure OpenAIStreamBody where
  model : String
  messages : List VendorChatMessage
  temperature : Rat
  max_tokens : Nat
  stream : Bool

/-- `openaiService.generateResponse` request body. -/
def openaiGenerateBody (p : ChatCallParams) : OpenAIGenerateBody :=
  { model := p.model.getD "gpt-4"
    messages := openaiStyleFormatMessages p.messages p.systemPrompt
    temperature := p.temperature.getD 0.7
    max_tokens := p.maxTokens.getD 1000
    top_p := 1
    frequency_penalty := 0
    presence_penalty := 0 }

/-- `openaiService.streamResponse` request body: `max_tokens` is the literal
1000; `maxTokens` is not among the destructured parameters. -/
def openaiStreamBody (p : ChatCallParams) : OpenAIStreamBody :=
  { model := p.model.getD "gpt-4"
    messages := openaiStyleFormatMessages p.messages p.systemPrompt
    temperature := p.temperature.getD 0.7
    max_tokens := 1000
    stream := true }

/-! ### Provider adapters: response translation -/

/-- Anthropic vendor usage: separate input/output counts, no total. -/
structure AnthropicVendorUsage where
  input_tokens : Int
  output_tokens : Int
deriving Repr, DecidableEq

/-- One block of `response.content` in the Anthropic response. -/
structure AnthropicContentBlock where
  text : String
deriving Repr, DecidableEq

/-- The Anthropic non-streaming response shape the adapter reads; `usage` is
optional because its absence makes the field accesses fail. -/
structure AnthropicVendorResponse where
  content : List AnthropicContentBlock
  model : String
  usage : Option AnthropicVendorUsage
deriving Repr, DecidableEq

/-- `anthropicService.generateResponse` response translation: canonical
content is `response.content[0].text`, and the canonical total is computed as
`input_tokens + output_tokens` (the vendor reports no total). A response with
no content block or no usage object makes the adapter throw. -/
def anthropicGenerateTranslate (response : AnthropicVendorResponse) :
    Except String GenerationResult :=
  match response.content, response.usage with
  | block :: _, some u =>
    Except.ok
      { content := block.text
        model := response.model
        usage :=
          { prompt_tokens := u.input_tokens
            completion_tokens := u.output_tokens
            total_tokens := u.input_tokens + u.output_tokens } }
  | _, _ => Except.error "Anthropic API error: TypeError"

/-- The `message` member of a Mistral/OpenAI response choice. -/
structure ChoiceMessage where
  content : String
deriving Repr, DecidableEq

/-- One element of the `choices` array. -/
structure ResponseChoice where
  message : ChoiceMessage
deriving Repr, DecidableEq

/-- The Mistral (and OpenAI) non-streaming response shape the adapters read;
`usage` is optional because its absence makes the field accesses fail. -/
structure ChatCompletionResponse where
  choices : List ResponseChoice
  model : String
  usage : Option CanonicalUsage
deriving Repr, DecidableEq

/-- `mistralService.generateResponse` response translation: content is
`data.choices[0].message.content` and the three usage fields are copied from
the vendor verbatim — there is no defaulting, and a response without a
`usage` object (or without choices) makes the call fail with the adapter's
wrapped error. -/
def mistralGenerateTranslate (data : ChatCompletionResponse) :
    Except String GenerationResult :=
  match data.choices, data.usage with
  | choice :: _, some u =>
    Except.ok
      { content := choice.message.content
        model := data.model
        usage :=
          { prompt_tokens := u.prompt_tokens
            completion_tokens := u.completion_tokens
            total_tokens := u.total_tokens } }
  | _, _ => Except.error "Mistral API error: TypeError"

/-- `openaiService.generateResponse` response translation (same shape as the
Mistral one, with OpenAI's error prefix). -/
def openaiGenerateTranslate (response : ChatCompletionResponse) :
    Except String GenerationResult :=
  match response.choices, response.usage with
  | choice :: _, some u =>
    Except.ok
      { content := choice.message.content
        model := response.model
        usage :=
          { prompt_tokens := u.prompt_tokens
            completion_tokens := u.completion_tokens
            total_tokens := u.total_tokens } }
  | _, _ => Except.error "OpenAI API error: TypeError"

/-! ### Streaming loops of the client-backed adapters (OpenAI, Anthropic) -/

/-- One chunk of the OpenAI streaming iterator, projected to the fields the
loop reads: `choices[0]?.delta?.content`, `choices[0]?.finish_reason`, and
`chunk.usage`. -/
structure OpenAIStreamChunk where
  deltaContent : Option String
  finishReason : Option String
  usage : Option CanonicalUsage
deriving Repr, DecidableEq

/-- Accumulator of the OpenAI streaming loop: `fullContent`, the contents
passed to `onChunk` in order, and the remembered `usage`. -/
structure StreamAccum where
  fullContent : String
  emitted : List String
  usage : Option CanonicalUsage
deriving Repr, DecidableEq

/-- One iteration of the OpenAI `for await` loop body. -/
def openaiStreamStep (acc : StreamAccum) (chunk : OpenAIStreamChunk) : StreamAccum :=
  let content := chunk.deltaContent.getD ""
  let acc1 :=
    if content ≠ "" then
      { acc with fullContent := acc.fullContent ++ content
                 emitted := acc.emitted ++ [content] }
    else acc
  if chunk.finishReason = some "stop" then { acc1 with usage := chunk.usage } else acc1

/-- The OpenAI streaming loop from a given accumulator. -/
def openaiStreamRunFrom (acc : StreamAccum) : List OpenAIStreamChunk → StreamAccum
  | [] => acc
  | chunk :: rest => openaiStreamRunFrom (openaiStreamStep acc chunk) rest

/-- The OpenAI streaming loop from the initial state (`fullContent = ''`,
nothing emitted, `usage = null`). -/
def openaiStreamRun (chunks : List OpenAIStreamChunk) : StreamAccum :=
  openaiStreamRunFrom { fullContent := "", emitted := [], usage := none } chunks

/-- The delta text each OpenAI chunk carries, after `|| ''`. -/
def openaiStreamDeltas (chunks : List OpenAIStreamChunk) : List String :=
  chunks.map (fun chunk => chunk.deltaContent.getD "")

/-- One chunk of the Anthropic streaming iterator, projected to the variants
the loop distinguishes by `chunk.type`. -/
inductive AnthropicStreamChunk where
  | contentBlockDelta (text : String)
  | messageDelta (usage : AnthropicVendorUsage)
  | other
deriving Repr, DecidableEq

/-- Accumulator of the Anthropic streaming loop. -/
structure AnthropicStreamAccum where
  fullContent : String
  emitted : List String
  usage : Option AnthropicVendorUsage
deriving Repr, DecidableEq

/-- One iteration of the Anthropic `for await` loop body: a
`content_block_delta` appends and emits its text (with no emptiness check), a
`message_delta` replaces the remembered usage. -/
def anthropicStreamStep (acc : AnthropicStreamAccum) (chunk : AnthropicStreamChunk) :
    AnthropicStreamAccum :=
  match chunk with
  | AnthropicStreamChunk.contentBlockDelta text =>
    { acc with fullContent := acc.fullContent ++ text
               emitted := acc.emitted ++ [text] }
  | AnthropicStreamChunk.messageDelta u => { acc with usage := some u }
  | AnthropicStreamChunk.other => acc

/-- The Anthropic streaming loop from a given accumulator. -/
def anthropicStreamRunFrom (acc : AnthropicStreamAccum) :
    List AnthropicStreamChunk → AnthropicStreamAccum
  | [] => acc
  | chunk :: rest => anthropicStreamRunFrom (anthropicStreamStep acc chunk) rest

/-- The Anthropic streaming loop from the initial state. -/
def anthropicStreamRun (chunks : List AnthropicStreamChunk) : AnthropicStreamAccum :=
  anthropicStreamRunFrom { fullContent := "", emitted := [], usage := none } chunks

/-- The delta texts of the Anthropic chunk sequence (the `content_block_delta`
payloads, in order). -/
def anthropicStreamDeltas (chunks : List AnthropicStreamChunk) : List String :=
  chunks.filterMap (fun chunk =>
    match chunk with
    | AnthropicStreamChunk.contentBlockDelta text => some text
    | _ => none)

/-- The argument `onComplete` receives at the end of a stream. -/
structure StreamCompletion where
  content : String
  model : String
  usage : Option CanonicalUsage
deriving Repr, DecidableEq

/-- The OpenAI stream's `onComplete` payload: the accumulated `fullContent`,
the requested model, and the remembered usage. -/
def openaiStreamOnComplete (model : String) (chunks : List OpenAIStreamChunk) :
    StreamCompletion :=
  let acc := openaiStreamRun chunks
  { content := acc.fullContent, model := model, usage := acc.usage }

/-- The Anthropic stream's `onComplete` payload: `fullContent`, the requested
model, and the usage translated to canonical shape when one was seen
(`total = input + output`), `null` otherwise. -/
def anthropicStreamOnComplete (model : String) (chunks : List AnthropicStreamChunk) :
    StreamCompletion :=
  let acc := anthropicStreamRun chunks
  { content := acc.fullContent
    model := model
    usage := acc.usage.map (fun u =>
      { prompt_tokens := u.input_tokens
        completion_tokens := u.output_tokens
        total_tokens := u.input_tokens + u.output_tokens }) }

/-- A deterministic OpenAI backend stub: the fixed non-streaming response and
the fixed chunk sequence its streaming endpoint delivers for the same
request. -/
structure OpenAIStub where
  response : ChatCompletionResponse
  streamChunks : List OpenAIStreamChunk

/-- A deterministic Anthropic backend stub. -/
structure AnthropicStub where
  response : AnthropicVendorResponse
  streamChunks : List AnthropicStreamChunk

/-! ### Conversation store (ConversationManager) -/

/-- The `lastMessage` preview stored in a metadata record. -/
structure LastMessagePreview where
  role : String
  content : String
  timestamp : String
deriving Repr, DecidableEq

/-- One record of `metadata.json`. On creation only `createdAt`,
`messageCount` and `title` are set; the update that immediately follows fills
`lastUpdated` and `lastMessage`, so the two are modelled with placeholder
initial values that every code path overwrites before the record is stored. -/
structure ConvMeta where
  createdAt : String
  messageCount : Nat
  title : String
  lastUpdated : String
  lastMessage : Option LastMessagePreview
deriving Repr, DecidableEq

/-- Membership predicate for JavaScript word characters (`\w` = ASCII
alphanumerics and underscore). -/
def isWordChar (c : Char) : Bool := c.isAlphanum || c = '_'

/-- `generateTitle`: strips every character that is neither a word character
nor whitespace (`replace(/[^\w\s]/gi, '')`), trims, splits on single space
characters (`split(' ')`, so consecutive spaces yield empty fragments that
count), keeps the first five fragments, joins them with spaces, and falls
back to `'New Conversation'` when the join is empty. -/
def generateTitle (content : String) : String :=
  let cleanContent := trimChars (content.data.filter (fun c => isWordChar c || c.isWhitespace))
  let words := (splitChar ' ' cleanContent).take 5
  let title := joinSep " " (words.map String.mk)
  if title = "" then "New Conversation" else title

/-- The preview content stored in `lastMessage`:
`content.substring(0, 100) + (content.length > 100 ? '...' : '')`. -/
def truncateContent (s : String) : String :=
  String.mk (s.data.take 100) ++ (if 100 < s.data.length then "..." else "")

/-- The metadata record for one conversation after
`updateConversationMetadata` processes `lastMessage`: an absent record is
created with `messageCount = 0` and a title generated from this message's
content, then (in either case) `lastUpdated` is set to the current time,
`messageCount` is incremented by one, and `lastMessage` is replaced by the
truncated preview. -/
def updatedMeta (existing : Option ConvMeta) (lastMessage : Message) (now : String) :
    ConvMeta :=
  let base :=
    match existing with
    | some m => m
    | none =>
      { createdAt := now
        messageCount := 0
        title := generateTitle lastMessage.content
        lastUpdated := ""
        lastMessage := none }
  { base with
    lastUpdated := now
    messageCount := base.messageCount + 1
    lastMessage := some
      { role := lastMessage.role
        content := truncateContent lastMessage.content
        timestamp := lastMessage.timestamp } }

/-- `updateConversationMetadata`: read-modify-write of the shared
`metadata.json` object at one conversation id. -/
def updateConversationMetadata (metadata : List (String × ConvMeta))
    (conversationId : String) (lastMessage : Message) (now : String) :
    List (String × ConvMeta) :=
  objSet metadata conversationId (updatedMeta (objGet metadata conversationId) lastMessage now)

/-- The store's persistent state: the per-conversation log files
(`<id>.json`, absent key = missing file) and the shared `metadata.json`. -/
structure StoreState where
  logs : List (String × List Message)
  metadata : List (String × ConvMeta)
deriving Repr, DecidableEq

/-- The store before any conversation exists. -/
def emptyStore : StoreState := { logs := [], metadata := [] }

/-- The post-append truncation in `saveMessage`: `slice(-50)` when the log
exceeds 50 entries. -/
def capLog (conversation : List Message) : List Message :=
  if conversation.length > 50 then lastN 50 conversation else conversation

/-- `saveMessage`: loads the current log (empty when the file is missing),
pushes the message, truncates to the most recent 50 entries, writes the log
back, then updates the metadata record. The synthetic `id`/`createdAt` fields
the source spreads onto the stored copy are elided (see the header note). -/
def saveMessage (st : StoreState) (conversationId : String) (message : Message)
    (now : String) : StoreState :=
  let conversation := (objGet st.logs conversationId).getD []
  let conversation := capLog (conversation ++ [message])
  { logs := objSet st.logs conversationId conversation
    metadata := updateConversationMetadata st.metadata conversationId message now }

/-- A sequence of `saveMessage` calls on one conversation id, each with its
own wall-clock time. -/
def saveAll (st : StoreState) (conversationId : String) :
    List (Message × String) → StoreState
  | [] => st
  | (message, now) :: rest => saveAll (saveMessage st conversationId message now) conversationId rest

/-- `getConversation`: the stored log, or the empty sequence when the file is
missing (`ENOENT`). -/
def getConversation (st : StoreState) (conversationId : String) : List Message :=
  (objGet st.logs conversationId).getD []

/-- `deleteConversation`: `fs.unlink` on the log file — which throws `ENOENT`
when the conversation was never created, an error the surrounding catch
rethrows — and, on success, removal of the metadata record. The state is
returned alongside the outcome; an erroring call leaves it untouched because
the unlink fails before anything is written. -/
def deleteConversation (st : StoreState) (conversationId : String) :
    Except String Unit × StoreState :=
  match objGet st.logs conversationId with
  | none => (Except.error "ENOENT", st)
  | some _ =>
    (Except.ok (),
     { logs := objDelete st.logs conversationId
       metadata := objDelete st.metadata conversationId })

/-- The `stats()` result. -/
structure ConversationStats where
  totalConversations : Nat
  totalMessages : Nat
  averageMessagesPerConversation : Nat
deriving Repr, DecidableEq

/-- `getConversationStats`: conversation count and `messageCount` sum over
the metadata index, and their ratio rounded half-up (`Math.round`), zero when
there are no conversations. -/
def getConversationStats (st : StoreState) : ConversationStats :=
  let totalConversations := st.metadata.length
  let totalMessages := (st.metadata.map (fun p => p.2.messageCount)).sum
  { totalConversations := totalConversations
    totalMessages := totalMessages
    averageMessagesPerConversation :=
      if totalConversations > 0 then
        (2 * totalMessages + totalConversations) / (2 * totalConversations)
      else 0 }

/-- `importConversation`: writes the caller-supplied message sequence
verbatim as the log for the chosen id (no 50-entry truncation), then — when
the sequence is non-empty — runs one metadata update fed with the final
message of the sequence. -/
def importConversation (st : StoreState) (conversationData : List Message)
    (conversationId : String) (now : String) : StoreState :=
  let logs := objSet st.logs conversationId conversationData
  match conversationData.getLast? with
  | some lastMessage =>
    { logs := logs
      metadata := updateConversationMetadata st.metadata conversationId lastMessage now }
  | none => { logs := logs, metadata := st.metadata }

/-! ### The `/api/chat` endpoint's persistence/response control flow

The handler awaits `generateResponse`, then `saveMessage(convId, userMessage)`
and `saveMessage(convId, assistantMessage)`, then sends the JSON response; a
throw from any of these jumps to the single catch, which answers
`500 {error: 'Failed to generate response'}`. The three awaited outcomes are
parameters; the result records the HTTP response together with which of the
two turns had been persisted when the handler finished. -/

/-- The HTTP response of the `/api/chat` handler. -/
inductive ChatHttpResponse where
  | ok (response : String) (conversationId : String) (model : String) (usage : CanonicalUsage)
  | serverError (error : String)
deriving Repr, DecidableEq

/-- Control flow of the `/api/chat` handler after provider selection:
returns the HTTP response and the pair (user turn persisted, assistant turn
persisted). -/
def chatEndpoint (genOutcome : Except String GenerationResult)
    (saveUserOutcome saveAssistantOutcome : Except String Unit)
    (convId : String) : ChatHttpResponse × Bool × Bool :=
  match genOutcome with
  | Except.error _ => (ChatHttpResponse.serverError "Failed to generate response", false, false)
  | Except.ok aiResponse =>
    match saveUserOutcome with
    | Except.error _ => (ChatHttpResponse.serverError "Failed to generate response", false, false)
    | Except.ok _ =>
      match saveAssistantOutcome with
      | Except.error _ => (ChatHttpResponse.serverError "Failed to generate response", true, false)
      | Except.ok _ =>
        (ChatHttpResponse.ok aiResponse.content convId aiResponse.model aiResponse.usage,
         true, true)

/-! ### Spec-side definition for the title claim -/

/-- The title algorithm as claim C5's words describe it — "stripping
punctuation and joining the first five whitespace-delimited tokens": after the
same character stripping, the content is split at whitespace into maximal
non-empty tokens, of which the first five are joined, with the same
placeholder fallback. Stated only to be compared with `generateTitle`. -/
def titleSpecC5 (content : String) : String :=
  let cleanContent := trimChars (content.data.filter (fun c => isWordChar c || c.isWhitespace))
  let tokens := ((splitBy Char.isWhitespace cleanContent).filter (fun w => w ≠ [])).take 5
  let title := joinSep " " (tokens.map String.mk)
  if title = "" then "New Conversation" else title

/-! ### Concrete example values used by witnesses and counterexamples -/

/-- A call-parameter object carrying an explicit caller-chosen `maxTokens`. -/
def c8Params : ChatCallParams :=
  { messages := [⟨"user", "Hi", "t0"⟩]
    model := none
    systemPrompt := none
    temperature := none
    maxTokens := some 42 }

/-- A Mistral vendor response with a content choice but no `usage` object. -/
def c9NoUsageResponse : ChatCompletionResponse :=
  { choices := [⟨⟨"Hello!"⟩⟩], model := "mistral-large-latest", usage := none }

/-- A deterministic OpenAI stub: the non-streaming response says `"Hello"`
and the streaming endpoint delivers the same completion as `"He"` + `"llo"`. -/
def c2OpenAIStub : OpenAIStub :=
  { response := { choices := [⟨⟨"Hello"⟩⟩], model := "gpt-4", usage := some ⟨1, 2, 3⟩ }
    streamChunks :=
      [{ deltaContent := some "He", finishReason := none, usage := none },
       { deltaContent := some "llo", finishReason := some "stop", usage := some ⟨1, 2, 3⟩ }] }

/-- A deterministic Anthropic stub: the non-streaming response says `"Hi!"`
and the streaming endpoint delivers `"Hi"` + `"!"` then a usage event. -/
def c2AnthropicStub : AnthropicStub :=
  { response := { content := [⟨"Hi!"⟩], model := "claude-3-sonnet-20240229", usage := some ⟨4, 2⟩ }
    streamChunks :=
      [AnthropicStreamChunk.contentBlockDelta "Hi",
       AnthropicStreamChunk.contentBlockDelta "!",
       AnthropicStreamChunk.messageDelta ⟨4, 2⟩] }

/-! ## Helper lemmas -/

/-- Reading back the key just written into a JavaScript-object map. -/
theorem objGet_objSet_self {α : Type} (m : List (String × α)) (k : String) (v : α) :
    objGet (objSet m k v) k = some v := by
  induction m with
  | nil => simp [objSet, objGet]
  | cons p rest ih =>
    obtain ⟨k', v'⟩ := p
    by_cases h : k' = k
    · simp [objSet, h, objGet]
    · simp [objSet, h, objGet, ih]

/-- Taking the last `n` of an already-truncated list prolonged by `y` is the
same as truncating the whole sequence: the sliding-window property behind the
history cap. -/
theorem lastN_append_lastN {α : Type} (n : Nat) (x y : List α) :
    lastN n (lastN n x ++ y) = lastN n (x ++ y) := by
  unfold lastN
  rw [List.drop_append_eq_append_drop, List.drop_append_eq_append_drop, List.drop_drop]
  congr 1 <;> · congr 1; simp [List.length_append, List.length_drop]; omega

/-- Short lists are unaffected by `lastN`. -/
theorem lastN_of_le {α : Type} {n : Nat} {l : List α} (h : l.length ≤ n) : lastN n l = l := by
  unfold lastN
  rw [Nat.sub_eq_zero_of_le h, List.drop_zero]

/-- Length of the `lastN` window. -/
theorem lastN_length {α : Type} (n : Nat) (l : List α) : (lastN n l).length = min n l.length := by
  unfold lastN
  simp [List.length_drop]
  omega

/-- The `saveMessage` truncation always equals the last-50 window (for logs of
50 or fewer entries the window is the whole log). -/
theorem capLog_eq_lastN (l : List Message) : capLog l = lastN 50 l := by
  unfold capLog
  split
  · rfl
  · next h => exact (lastN_of_le (by omega)).symm

/-- The log stored by one `saveMessage` call. -/
theorem getConversation_saveMessage (st : StoreState) (conversationId : String)
    (m : Message) (now : String) :
    getConversation (saveMessage st conversationId m now) conversationId
      = capLog (getConversation st conversationId ++ [m]) := by
  simp [getConversation, saveMessage, objGet_objSet_self]

/-- The metadata record stored by one `saveMessage` call. -/
theorem metadata_saveMessage (st : StoreState) (conversationId : String)
    (m : Message) (now : String) :
    objGet (saveMessage st conversationId m now).metadata conversationId
      = some (updatedMeta (objGet st.metadata conversationId) m now) := by
  simp [saveMessage, updateConversationMetadata, objGet_objSet_self]

/-- Splitting a sequence of appends. -/
theorem saveAll_append (xs ys : List (Message × String)) :
    ∀ (st : StoreState) (conversationId : String),
    saveAll st conversationId (xs ++ ys)
      = saveAll (saveAll st conversationId xs) conversationId ys := by
  induction xs with
  | nil => intro st conversationId; rfl
  | cons p rest ih =>
    intro st conversationId
    obtain ⟨m, now⟩ := p
    simp [saveAll, ih]

/-- The log left by a sequence of appends is the last-50 window of the
starting log prolonged by all appended messages, provided the starting log
respects the cap (which every reachable log does). -/
theorem saveAll_log (pairs : List (Message × String)) :
    ∀ (st : StoreState) (conversationId : String),
    (getConversation st conversationId).length ≤ 50 →
    getConversation (saveAll st conversationId pairs) conversationId
      = lastN 50 (getConversation st conversationId ++ pairs.map Prod.fst) := by
  induction pairs with
  | nil =>
    intro st conversationId h
    simp [saveAll, lastN_of_le h]
  | cons p rest ih =>
    intro st conversationId h
    obtain ⟨m, now⟩ := p
    show getConversation
        (saveAll (saveMessage st conversationId m now) conversationId rest) conversationId = _
    rw [ih (saveMessage st conversationId m now) conversationId
        (by rw [getConversation_saveMessage, capLog_eq_lastN]
            have := lastN_length 50 (getConversation st conversationId ++ [m])
            omega)]
    rw [getConversation_saveMessage, capLog_eq_lastN, lastN_append_lastN]
    simp

/-- A metadata update increments the stored count by exactly one. -/
theorem updatedMeta_messageCount (ex : Option ConvMeta) (m : Message) (now : String) :
    (updatedMeta ex m now).messageCount = ((ex.map ConvMeta.messageCount).getD 0) + 1 := by
  cases ex <;> rfl

/-- A metadata update stamps the current time. -/
theorem updatedMeta_lastUpdated (ex : Option ConvMeta) (m : Message) (now : String) :
    (updatedMeta ex m now).lastUpdated = now := by
  cases ex <;> rfl

/-- A metadata update stores the truncated preview of the message it was fed. -/
theorem updatedMeta_lastMessage (ex : Option ConvMeta) (m : Message) (now : String) :
    (updatedMeta ex m now).lastMessage
      = some ⟨m.role, truncateContent m.content, m.timestamp⟩ := by
  cases ex <;> rfl

/-- A metadata update of an existing record never touches its title. -/
theorem updatedMeta_title_some (e : ConvMeta) (m : Message) (now : String) :
    (updatedMeta (some e) m now).title = e.title := rfl

/-- A metadata update creating the record derives the title from the message
it was fed. -/
theorem updatedMeta_title_none (m : Message) (now : String) :
    (updatedMeta none m now).title = generateTitle m.content := rfl

/-- Each append adds exactly one to the stored `messageCount`, whatever the
physical truncation does to the log. -/
theorem saveAll_messageCount (pairs : List (Message × String)) :
    ∀ (st : StoreState) (conversationId : String),
    ((objGet (saveAll st conversationId pairs).metadata conversationId).map
        ConvMeta.messageCount).getD 0
      = ((objGet st.metadata conversationId).map ConvMeta.messageCount).getD 0 + pairs.length := by
  induction pairs with
  | nil => intro st conversationId; rfl
  | cons p rest ih =>
    intro st conversationId
    obtain ⟨m, now⟩ := p
    show ((objGet (saveAll (saveMessage st conversationId m now) conversationId rest).metadata
        conversationId).map ConvMeta.messageCount).getD 0 = _
    rw [ih, metadata_saveMessage]
    simp [updatedMeta_messageCount]
    omega

/-- Once a metadata record exists, any sequence of further appends leaves its
title untouched. -/
theorem saveAll_title (pairs : List (Message × String)) :
    ∀ (st : StoreState) (conversationId : String) (e : ConvMeta),
    objGet st.metadata conversationId = some e →
    ∃ meta : ConvMeta,
      objGet (saveAll st conversationId pairs).metadata conversationId = some meta ∧
      meta.title = e.title := by
  induction pairs with
  | nil => intro st conversationId e h; exact ⟨e, h, rfl⟩
  | cons p rest ih =>
    intro st conversationId e h
    obtain ⟨m, now⟩ := p
    obtain ⟨meta, hm, ht⟩ := ih (saveMessage st conversationId m now) conversationId
      (updatedMeta (some e) m now) (by rw [metadata_saveMessage, h])
    exact ⟨meta, hm, ht.trans (updatedMeta_title_some e m now)⟩

/-- Concatenation distributes over list append. -/
theorem concatStrings_append (a b : List String) :
    concatStrings (a ++ b) = concatStrings a ++ concatStrings b := by
  induction a with
  | nil => simp [concatStrings, String.empty_append]
  | cons s rest ih => simp [concatStrings, ih, String.append_assoc]

/-- Invariant of the OpenAI streaming loop: `fullContent` grows by the
concatenated deltas, and the concatenation of everything passed to `onChunk`
grows by the same string (the `if (content)` guard only skips empty
fragments, which contribute nothing). -/
theorem openaiStreamRunFrom_spec (chunks : List OpenAIStreamChunk) :
    ∀ acc : StreamAccum,
    (openaiStreamRunFrom acc chunks).fullContent
      = acc.fullContent ++ concatStrings (openaiStreamDeltas chunks) ∧
    concatStrings (openaiStreamRunFrom acc chunks).emitted
      = concatStrings acc.emitted ++ concatStrings (openaiStreamDeltas chunks) := by
  induction chunks with
  | nil =>
    intro acc
    simp [openaiStreamRunFrom, openaiStreamDeltas, concatStrings, String.append_empty]
  | cons c rest ih =>
    intro acc
    obtain ⟨ih1, ih2⟩ := ih (openaiStreamStep acc c)
    have hfull : (openaiStreamStep acc c).fullContent
        = acc.fullContent ++ c.deltaContent.getD "" := by
      unfold openaiStreamStep
      by_cases h : c.deltaContent.getD "" = ""
      · simp [h, String.append_empty]
        split <;> rfl
      · simp [h]
        split <;> rfl
    have hemit : concatStrings (openaiStreamStep acc c).emitted
        = concatStrings acc.emitted ++ c.deltaContent.getD "" := by
      unfold openaiStreamStep
      by_cases h : c.deltaContent.getD "" = ""
      · simp [h, String.append_empty]
        split <;> rfl
      · simp [h]
        have : concatStrings (acc.emitted ++ [c.deltaContent.getD ""])
            = concatStrings acc.emitted ++ c.deltaContent.getD "" := by
          rw [concatStrings_append]
          simp [concatStrings, String.append_empty]
        split <;> simpa using this
    constructor
    · show (openaiStreamRunFrom (openaiStreamStep acc c) rest).fullContent = _
      rw [ih1, hfull]
      simp [openaiStreamDeltas, concatStrings, String.append_assoc]
    · show concatStrings (openaiStreamRunFrom (openaiStreamStep acc c) rest).emitted = _
      rw [ih2, hemit]
      simp [openaiStreamDeltas, concatStrings, String.append_assoc]

/-- Invariant of the Anthropic streaming loop, as for the OpenAI one (here
every `content_block_delta` is emitted unconditionally). -/
theorem anthropicStreamRunFrom_spec (chunks : List AnthropicStreamChunk) :
    ∀ acc : AnthropicStreamAccum,
    (anthropicStreamRunFrom acc chunks).fullContent
      = acc.fullContent ++ concatStrings (anthropicStreamDeltas chunks) ∧
    concatStrings (anthropicStreamRunFrom acc chunks).emitted
      = concatStrings acc.emitted ++ concatStrings (anthropicStreamDeltas chunks) := by
  induction chunks with
  | nil =>
    intro acc
    simp [anthropicStreamRunFrom, anthropicStreamDeltas, concatStrings, String.append_empty]
  | cons c rest ih =>
    intro acc
    obtain ⟨ih1, ih2⟩ := ih (anthropicStreamStep acc c)
    cases c with
    | contentBlockDelta text =>
      constructor
      · show (anthropicStreamRunFrom (anthropicStreamStep acc _) rest).fullContent = _
        rw [ih1]
        simp [anthropicStreamStep, anthropicStreamDeltas, concatStrings, String.append_assoc]
      · show concatStrings (anthropicStreamRunFrom (anthropicStreamStep acc _) rest).emitted = _
        rw [ih2]
        have : concatStrings (acc.emitted ++ [text])
            = concatStrings acc.emitted ++ text := by
          rw [concatStrings_append]; simp [concatStrings, String.append_empty]
        simp [anthropicStreamStep, anthropicStreamDeltas, concatStrings, String.append_assoc, this]
    | messageDelta u =>
      constructor
      · show (anthropicStreamRunFrom (anthropicStreamStep acc _) rest).fullContent = _
        rw [ih1]; simp [anthropicStreamStep, anthropicStreamDeltas]
      · show concatStrings (anthropicStreamRunFrom (anthropicStreamStep acc _) rest).emitted = _
        rw [ih2]; simp [anthropicStreamStep, anthropicStreamDeltas]
    | other =>
      constructor
      · show (anthropicStreamRunFrom (anthropicStreamStep acc _) rest).fullContent = _
        rw [ih1]; simp [anthropicStreamStep, anthropicStreamDeltas]
      · show concatStrings (anthropicStreamRunFrom (anthropicStreamStep acc _) rest).emitted = _
        rw [ih2]; simp [anthropicStreamStep, anthropicStreamDeltas]

/-! ## Claim theorems -/

/-- Claim C1, counterexample. The claim asserts that the Mistral stream
parser buffers the fragment `"data: {\"delta\":\"He"` and, when `"llo\"}\n"`
arrives, reassembles and emits `Delta("Hello")` exactly once. Running the
embedded handler on exactly those two arrivals emits no event at all and
leaves the accumulated content empty: each read is split in isolation, the
first fragment fails `JSON.parse` and is swallowed, the second lacks the
`data: ` prefix and is skipped. -/
theorem C1_counterexample :
    processChunks ⟨"", none⟩ "mistral-large-latest"
      ["data: \x7b\"delta\":\"He", "llo\"\x7d\n"]
      = (⟨"", none⟩, []) := rfl

/-- Claim C1, amended. The Mistral stream parser keeps no buffer across
network reads: a vendor line split across two arrivals is silently dropped —
no event is emitted for it, its content is lost, and the handler state is
unchanged — rather than reassembled or treated as a stream failure, and a
subsequent complete well-formed line resumes normal processing with its
delta emitted once. -/
theorem C1_split_line_dropped (st : MistralStreamState) (model : String) :
    processChunks st model ["data: \x7b\"delta\":\"He", "llo\"\x7d\n"] = (st, []) ∧
    processChunk st model
        "data: \x7b\"choices\":[\x7b\"delta\":\x7b\"content\":\"Hello\"\x7d\x7d]\x7d\n"
      = ({ st with fullContent := st.fullContent ++ "Hello" }, [StreamEvent.delta "Hello"]) :=
  ⟨rfl, rfl⟩

/-- Claim C2: against a deterministic provider stub (one whose streaming
chunk sequence carries the same completion its non-streaming response
reports), the concatenation in arrival order of the delta payloads passed to
`onChunk` equals the `content` of the non-streaming `generateResponse`
result, and equals the `content` delivered to `onComplete` — for both the
OpenAI and the Anthropic adapter. -/
theorem C2_content_equivalence (ostub : OpenAIStub) (astub : AnthropicStub)
    (r ra : GenerationResult) (model modela : String)
    (h1 : openaiGenerateTranslate ostub.response = Except.ok r)
    (h2 : r.content = concatStrings (openaiStreamDeltas ostub.streamChunks))
    (h3 : anthropicGenerateTranslate astub.response = Except.ok ra)
    (h4 : ra.content = concatStrings (anthropicStreamDeltas astub.streamChunks)) :
    concatStrings (openaiStreamRun ostub.streamChunks).emitted = r.content ∧
    (openaiStreamOnComplete model ostub.streamChunks).content = r.content ∧
    concatStrings (anthropicStreamRun astub.streamChunks).emitted = ra.content ∧
    (anthropicStreamOnComplete modela astub.streamChunks).content = ra.content := by
  obtain ⟨ho1, ho2⟩ := openaiStreamRunFrom_spec ostub.streamChunks ⟨"", [], none⟩
  obtain ⟨ha1, ha2⟩ := anthropicStreamRunFrom_spec astub.streamChunks ⟨"", [], none⟩
  refine ⟨?_, ?_, ?_, ?_⟩
  · show concatStrings (openaiStreamRunFrom ⟨"", [], none⟩ ostub.streamChunks).emitted = _
    rw [ho2, h2]
    simp [concatStrings, String.empty_append]
  · show (openaiStreamRunFrom ⟨"", [], none⟩ ostub.streamChunks).fullContent = _
    rw [ho1, h2, String.empty_append]
  · show concatStrings (anthropicStreamRunFrom ⟨"", [], none⟩ astub.streamChunks).emitted = _
    rw [ha2, h4]
    simp [concatStrings, String.empty_append]
  · show (anthropicStreamRunFrom ⟨"", [], none⟩ astub.streamChunks).fullContent = _
    rw [ha1, h4, String.empty_append]

/-- Claim C2, witness: the content-equivalence theorem applied to the two
concrete deterministic stubs. -/
theorem C2_witness :
    (openaiGenerateTranslate c2OpenAIStub.response
      = Except.ok ⟨"Hello", "gpt-4", ⟨1, 2, 3⟩⟩) ∧
    ((⟨"Hello", "gpt-4", ⟨1, 2, 3⟩⟩ : GenerationResult).content
      = concatStrings (openaiStreamDeltas c2OpenAIStub.streamChunks)) ∧
    (anthropicGenerateTranslate c2AnthropicStub.response
      = Except.ok ⟨"Hi!", "claude-3-sonnet-20240229", ⟨4, 2, 4 + 2⟩⟩) ∧
    ((⟨"Hi!", "claude-3-sonnet-20240229", ⟨4, 2, 4 + 2⟩⟩ : GenerationResult).content
      = concatStrings (anthropicStreamDeltas c2AnthropicStub.streamChunks)) ∧
    (concatStrings (openaiStreamRun c2OpenAIStub.streamChunks).emitted = "Hello" ∧
     (openaiStreamOnComplete "gpt-4" c2OpenAIStub.streamChunks).content = "Hello" ∧
     concatStrings (anthropicStreamRun c2AnthropicStub.streamChunks).emitted = "Hi!" ∧
     (anthropicStreamOnComplete "claude-3-sonnet-20240229" c2AnthropicStub.streamChunks).content
       = "Hi!") :=
  ⟨rfl, rfl, rfl, rfl,
   C2_content_equivalence c2OpenAIStub c2AnthropicStub
     ⟨"Hello", "gpt-4", ⟨1, 2, 3⟩⟩ ⟨"Hi!", "claude-3-sonnet-20240229", ⟨4, 2, 4 + 2⟩⟩
     "gpt-4" "claude-3-sonnet-20240229" rfl rfl rfl rfl⟩

/-- Claim C3: starting from a fresh store, appending any sequence of N
messages to one conversation id leaves exactly the most recent min(N, 50) of
them, in their original relative order (the oldest are dropped), and after
every intermediate append the stored log holds at most 50 messages. -/
theorem C3_history_cap (msgs : List (Message × String)) (conversationId : String) :
    getConversation (saveAll emptyStore conversationId msgs) conversationId
      = (msgs.map Prod.fst).drop (msgs.length - 50) ∧
    (getConversation (saveAll emptyStore conversationId msgs) conversationId).length
      = min msgs.length 50 ∧
    ∀ n : Nat,
      (getConversation (saveAll emptyStore conversationId (msgs.take n)) conversationId).length
        ≤ 50 := by
  have hempty : getConversation emptyStore conversationId = [] := rfl
  have h50 : (getConversation emptyStore conversationId).length ≤ 50 := by
    rw [hempty]; simp
  have hmain := saveAll_log msgs emptyStore conversationId h50
  rw [hempty, List.nil_append] at hmain
  refine ⟨?_, ?_, ?_⟩
  · rw [hmain]; unfold lastN; congr 1; simp
  · rw [hmain, lastN_length]; simp; omega
  · intro n
    have h := saveAll_log (msgs.take n) emptyStore conversationId h50
    rw [hempty, List.nil_append] at h
    rw [h, lastN_length]
    omega

/-- Claim C4: after N sequential appends to one conversation id (starting
from a fresh store), the metadata record shows `messageCount = N`, and
`lastUpdated` and `lastMessage` reflect the just-appended Nth message, with
the preview content truncated to 100 characters plus an ellipsis when the
content is longer. -/
theorem C4_metadata_consistency (pairs : List (Message × String)) (m : Message)
    (now conversationId : String) :
    ∃ meta : ConvMeta,
      objGet (saveAll emptyStore conversationId (pairs ++ [(m, now)])).metadata conversationId
        = some meta ∧
      meta.messageCount = pairs.length + 1 ∧
      meta.lastUpdated = now ∧
      meta.lastMessage = some ⟨m.role, truncateContent m.content, m.timestamp⟩ := by
  rw [saveAll_append]
  refine ⟨_, metadata_saveMessage _ _ _ _, ?_, updatedMeta_lastUpdated _ _ _,
    updatedMeta_lastMessage _ _ _⟩
  rw [updatedMeta_messageCount]
  have h := saveAll_messageCount pairs emptyStore conversationId
  simpa [emptyStore, objGet] using h

/-- Claim C5, counterexample. The claim describes the generated title as the
join of "the first five whitespace-delimited tokens" of the stripped content.
On the content `"a  b  c  d  e  f"` (two spaces between letters) the source's
`split(' ')` produces empty fragments that count toward the five, giving
title `"a  b  c"`, while the claim's whitespace-token reading gives
`"a b c d e"`. -/
theorem C5_counterexample :
    generateTitle "a  b  c  d  e  f" = "a  b  c" ∧
    titleSpecC5 "a  b  c  d  e  f" = "a b c d e" := by
  constructor <;> decide

/-- Claim C5, amended: the title is computed exactly once, at the first-ever
append, from the first message's content by `generateTitle` — which strips
the non-word, non-whitespace characters, trims, splits on single space
characters (consecutive spaces yielding empty fragments that count toward the
five kept), joins the first five fragments with spaces, and falls back to
`'New Conversation'` when that yields the empty string — and no subsequent
append to the same id ever changes it. -/
theorem C5_title_set_once (m : Message) (now conversationId : String)
    (pairs : List (Message × String)) :
    ∃ meta : ConvMeta,
      objGet (saveAll emptyStore conversationId ((m, now) :: pairs)).metadata conversationId
        = some meta ∧
      meta.title = generateTitle m.content := by
  have h1 : objGet (saveMessage emptyStore conversationId m now).metadata conversationId
      = some (updatedMeta none m now) := by
    rw [metadata_saveMessage]; rfl
  obtain ⟨meta, hm, ht⟩ := saveAll_title pairs _ conversationId _ h1
  exact ⟨meta, hm, ht.trans (updatedMeta_title_none m now)⟩

/-- Claim C6, counterexample. The claim asserts that deleting a never-created
conversation id returns success; in the source, `fs.unlink` on the missing
log file throws `ENOENT` and the surrounding catch rethrows, so the call
fails (the store itself is left unchanged). -/
theorem C6_counterexample :
    deleteConversation emptyStore "missing" = (Except.error "ENOENT", emptyStore) := rfl

/-- Claim C6, amended: deleting a conversation id with no stored log fails
with the `ENOENT` error (it is not a successful no-op), and it leaves the
stored logs, the metadata index — and therefore the stats — unchanged. -/
theorem C6_delete_unknown_id_errors (st : StoreState) (conversationId : String)
    (h : objGet st.logs conversationId = none) :
    deleteConversation st conversationId = (Except.error "ENOENT", st) ∧
    getConversationStats (deleteConversation st conversationId).2 = getConversationStats st := by
  unfold deleteConversation
  rw [h]
  exact ⟨rfl, rfl⟩

/-- Claim C6, witness: the amended theorem applied to the empty store and an
unknown id. -/
theorem C6_witness :
    objGet emptyStore.logs "missing" = none ∧
    (deleteConversation emptyStore "missing" = (Except.error "ENOENT", emptyStore) ∧
     getConversationStats (deleteConversation emptyStore "missing").2
       = getConversationStats emptyStore) :=
  ⟨rfl, C6_delete_unknown_id_errors emptyStore "missing" rfl⟩

/-- Claim C7, counterexample. The claim asserts that when persistence fails
after a successful generation, the generated content is still returned to the
caller. In the source a throw from `saveMessage` lands in the handler's
single catch, which answers `500 {error: 'Failed to generate response'}` — a
response carrying no content (the user turn, saved first, is persisted; the
assistant turn is not). -/
theorem C7_counterexample :
    chatEndpoint (Except.ok ⟨"Hello!", "claude-3-sonnet", ⟨1, 2, 3⟩⟩)
      (Except.ok ()) (Except.error "EIO") "c1"
      = (ChatHttpResponse.serverError "Failed to generate response", true, false) := rfl

/-- Claim C7, amended: the user and assistant turns are persisted only after
a successful generation (a generation failure persists neither and answers
with the generic error); when generation and both saves succeed the content
is returned with both turns persisted; but a persistence failure after a
successful generation answers with the generic 500 error — the generated
content is not returned — leaving neither turn persisted when the user-turn
save failed, and only the user turn persisted when the assistant-turn save
failed. -/
theorem C7_persistence_control_flow :
    (∀ (e : String) (u a : Except String Unit) (convId : String),
      chatEndpoint (Except.error e) u a convId
        = (ChatHttpResponse.serverError "Failed to generate response", false, false)) ∧
    (∀ (r : GenerationResult) (convId : String),
      chatEndpoint (Except.ok r) (Except.ok ()) (Except.ok ()) convId
        = (ChatHttpResponse.ok r.content convId r.model r.usage, true, true)) ∧
    (∀ (r : GenerationResult) (e : String) (a : Except String Unit) (convId : String),
      chatEndpoint (Except.ok r) (Except.error e) a convId
        = (ChatHttpResponse.serverError "Failed to generate response", false, false)) ∧
    (∀ (r : GenerationResult) (e : String) (convId : String),
      chatEndpoint (Except.ok r) (Except.ok ()) (Except.error e) convId
        = (ChatHttpResponse.serverError "Failed to generate response", true, false)) :=
  ⟨fun _ _ _ _ => rfl, fun _ _ => rfl, fun _ _ _ _ => rfl, fun _ _ _ => rfl⟩

/-- Claim C8: every adapter's `streamResponse` sends the literal
`max_tokens = 1000` to the vendor, ignoring any caller-supplied `maxTokens`,
while the corresponding `generateResponse` passes the caller's value (42 in
the concrete instance) — the divergence the specification flags. -/
theorem C8_streaming_fixed_max_tokens :
    (∀ p : ChatCallParams,
      (mistralStreamBody p).max_tokens = 1000 ∧
      (anthropicStreamBody p).max_tokens = 1000 ∧
      (openaiStreamBody p).max_tokens = 1000) ∧
    (mistralGenerateBody c8Params).max_tokens = 42 ∧
    (anthropicGenerateBody c8Params).max_tokens = 42 ∧
    (openaiGenerateBody c8Params).max_tokens = 42 ∧
    (mistralStreamBody c8Params).max_tokens = 1000 ∧
    (anthropicStreamBody c8Params).max_tokens = 1000 ∧
    (openaiStreamBody c8Params).max_tokens = 1000 :=
  ⟨fun _ => ⟨rfl, rfl, rfl⟩, rfl, rfl, rfl, rfl, rfl, rfl⟩

/-- Claim C9, counterexample. The claim asserts that an omitted vendor usage
field defaults to zero rather than causing the call to fail; the Mistral
adapter, fed a response with a content choice but no `usage` object, fails
with its wrapped error instead. -/
theorem C9_counterexample :
    mistralGenerateTranslate c9NoUsageResponse
      = Except.error "Mistral API error: TypeError" := rfl

/-- Claim C9, amended (for the two adapters the claim cites): canonical usage
copies the vendor's fields, so when the vendor reports non-negative values
all three canonical fields are non-negative; the Anthropic adapter, whose
vendor reports no total, computes `total_tokens` as
`input_tokens + output_tokens`; the Mistral adapter passes the vendor total
through; and a Mistral response omitting the `usage` object makes the call
fail with an error rather than defaulting the fields to zero. -/
theorem C9_usage_translation (btext am : String) (blocks : List AnthropicContentBlock)
    (uin uout : Int) (hin : 0 ≤ uin) (hout : 0 ≤ uout)
    (mcontent mm : String) (mch : List ResponseChoice) (up uc ut : Int)
    (hp : 0 ≤ up) (hc : 0 ≤ uc) (ht : 0 ≤ ut) :
    anthropicGenerateTranslate ⟨⟨btext⟩ :: blocks, am, some ⟨uin, uout⟩⟩
      = Except.ok ⟨btext, am, ⟨uin, uout, uin + uout⟩⟩ ∧
    0 ≤ uin ∧ 0 ≤ uout ∧ 0 ≤ uin + uout ∧
    mistralGenerateTranslate ⟨⟨⟨mcontent⟩⟩ :: mch, mm, some ⟨up, uc, ut⟩⟩
      = Except.ok ⟨mcontent, mm, ⟨up, uc, ut⟩⟩ ∧
    0 ≤ up ∧ 0 ≤ uc ∧ 0 ≤ ut ∧
    (∀ resp : ChatCompletionResponse, resp.usage = none →
      ∃ e, mistralGenerateTranslate resp = Except.error e) := by
  refine ⟨rfl, hin, hout, add_nonneg hin hout, rfl, hp, hc, ht, ?_⟩
  intro resp h
  obtain ⟨chs, mdl, us⟩ := resp
  cases us with
  | none => cases chs <;> exact ⟨_, rfl⟩
  | some u => simp at h

/-- Claim C9, witness: the usage-translation theorem applied at concrete
non-negative vendor counts. -/
theorem C9_witness :
    (0 ≤ (3 : Int)) ∧ (0 ≤ (5 : Int)) ∧ (0 ≤ (2 : Int)) ∧ (0 ≤ (4 : Int)) ∧ (0 ≤ (6 : Int)) ∧
    (anthropicGenerateTranslate ⟨[⟨"Hi"⟩], "claude-3-sonnet-20240229", some ⟨3, 5⟩⟩
       = Except.ok ⟨"Hi", "claude-3-sonnet-20240229", ⟨3, 5, 3 + 5⟩⟩ ∧
     0 ≤ (3 : Int) ∧ 0 ≤ (5 : Int) ∧ 0 ≤ (3 : Int) + 5 ∧
     mistralGenerateTranslate ⟨[⟨⟨"Yo"⟩⟩], "mistral-large-latest", some ⟨2, 4, 6⟩⟩
       = Except.ok ⟨"Yo", "mistral-large-latest", ⟨2, 4, 6⟩⟩ ∧
     0 ≤ (2 : Int) ∧ 0 ≤ (4 : Int) ∧ 0 ≤ (6 : Int) ∧
     (∀ resp : ChatCompletionResponse, resp.usage = none →
       ∃ e, mistralGenerateTranslate resp = Except.error e)) :=
  ⟨by decide, by decide, by decide, by decide, by decide,
   C9_usage_translation "Hi" "claude-3-sonnet-20240229" [] 3 5 (by decide) (by decide)
     "Yo" "mistral-large-latest" [] 2 4 6 (by decide) (by decide) (by decide)⟩

/-- Claim C10: importing a non-empty message sequence under a conversation id
with no prior metadata stores the sequence verbatim — with no truncation to
50 entries, whatever its length — and creates a metadata record with
`messageCount = 1` whose title and `lastMessage` are both derived from the
final message of the imported sequence. -/
theorem C10_import_stores_verbatim (st : StoreState) (conversationId now : String)
    (ms : List Message) (m : Message)
    (h : objGet st.metadata conversationId = none) :
    getConversation (importConversation st (ms ++ [m]) conversationId now) conversationId
      = ms ++ [m] ∧
    ∃ meta : ConvMeta,
      objGet (importConversation st (ms ++ [m]) conversationId now).metadata conversationId
        = some meta ∧
      meta.messageCount = 1 ∧
      meta.title = generateTitle m.content ∧
      meta.lastMessage = some ⟨m.role, truncateContent m.content, m.timestamp⟩ := by
  simp only [importConversation, List.getLast?_concat]
  constructor
  · simp [getConversation, objGet_objSet_self]
  · refine ⟨updatedMeta none m now, ?_, ?_, rfl, rfl⟩
    · simp [updateConversationMetadata, h, objGet_objSet_self]
    · rfl

/-- Claim C10, witness: the import theorem applied to a fresh store and a
52-message sequence (51 copies of a user message followed by one assistant
message), exercising the no-truncation case. -/
theorem C10_witness :
    objGet emptyStore.metadata "c" = none ∧
    (getConversation (importConversation emptyStore
        (List.replicate 51 ⟨"user", "x", "t0"⟩ ++ [⟨"assistant", "done", "t1"⟩]) "c" "n") "c"
      = List.replicate 51 ⟨"user", "x", "t0"⟩ ++ [⟨"assistant", "done", "t1"⟩] ∧
     ∃ meta : ConvMeta,
       objGet (importConversation emptyStore
          (List.replicate 51 ⟨"user", "x", "t0"⟩ ++ [⟨"assistant", "done", "t1"⟩])
          "c" "n").metadata "c"
         = some meta ∧
       meta.messageCount = 1 ∧
       meta.title = generateTitle (Message.mk "assistant" "done" "t1").content ∧
       meta.lastMessage = some ⟨(Message.mk "assistant" "done" "t1").role,
         truncateContent (Message.mk "assistant" "done" "t1").content,
         (Message.mk "assistant" "done" "t1").timestamp⟩) :=
  ⟨rfl, C10_import_stores_verbatim emptyStore "c" "n"
    (List.replicate 51 ⟨"user", "x", "t0"⟩) ⟨"assistant", "done", "t1"⟩ rfl⟩

end ChatbotBackend
